import Mathlib

/-!
# Verification of the ultrasonic-theremin signal path

A shallow embedding of the repository's Python sources:

* `src/rpi/sensors.py` — moving-average distance filter and potentiometer
  normalisation (modelled over `ℚ`; Python floats are modelled as exact
  rationals, field arithmetic being the intent of the numeric code);
* `src/server/server.py` — the MQTT `on_message` handler mapping distance to
  frequency with three clamp bands, and the WebSocket broadcast payloads;
* `src/server/audio_engine.py` — harmonic tone synthesis, silence generation
  and the audio callback (modelled over `ℝ`, since the samples involve `sin`).

Stateful code is modelled by explicit state passing; the `try/except` blocks
are modelled by total functions over an explicit parse / synthesis outcome.
-/

/- ===================== src/rpi/sensors.py ===================== -/

/-- `FILTER_WINDOW_SIZE = 5` from sensors.py. -/
def FILTER_WINDOW_SIZE : ℕ := 5

/-- One `distance_buffer.append(raw)` on a `deque(maxlen=FILTER_WINDOW_SIZE)`:
the sample is appended on the right and, when the deque is over capacity, the
oldest (leftmost) element is evicted. -/
def dequeAppend (buf : List ℚ) (x : ℚ) : List ℚ :=
  (buf ++ [x]).drop ((buf ++ [x]).length - FILTER_WINDOW_SIZE)

/-- The contents of `distance_buffer` after the raw reads `raws` (in arrival
order), starting from the empty deque. -/
def distanceBufferAfter (raws : List ℚ) : List ℚ :=
  raws.foldl dequeAppend []

/-- `get_filtered_distance` from sensors.py: after a successful raw read the
sample is appended to the deque and the function returns
`sum(distance_buffer) / float(len(distance_buffer))` (the `len == 0` branch is
dead code, since the deque was just appended to).  `raws` is the whole
sequence of successful raw reads so far, the last element being the read of
the current call. -/
def get_filtered_distance (raws : List ℚ) : ℚ :=
  (distanceBufferAfter raws).sum / ((distanceBufferAfter raws).length : ℚ)

/-- `get_volume` from sensors.py: reads the analog value (an integer; the
hardware range is 0–1023) and returns `pot_value / 1023.0`.  No clamping is
performed by the source. -/
def get_volume (pot_value : ℕ) : ℚ :=
  (pot_value : ℚ) / 1023

/- ===================== src/server/server.py ===================== -/

/-- `DISTANCE_MIN = 2` (cm). -/
def DISTANCE_MIN : ℚ := 2
/-- `DISTANCE_MAX = 25` (cm). -/
def DISTANCE_MAX : ℚ := 25
/-- `BUFFER_MIN = 0` (cm). -/
def BUFFER_MIN : ℚ := 0
/-- `BUFFER_MAX = 27` (cm). -/
def BUFFER_MAX : ℚ := 27
/-- `FREQ_MIN = 256` (Hz). -/
def FREQ_MIN : ℚ := 256
/-- `FREQ_MAX = 1024` (Hz). -/
def FREQ_MAX : ℚ := 1024

/-- `normalized = (d - DISTANCE_MIN) / (DISTANCE_MAX - DISTANCE_MIN)` from the
in-band branch of `on_message`. -/
def normalized (d : ℚ) : ℚ :=
  (d - DISTANCE_MIN) / (DISTANCE_MAX - DISTANCE_MIN)

/-- `FREQ_MIN + (FREQ_MAX - FREQ_MIN) * (1 - normalized)`: the in-band
distance-to-frequency formula of `on_message`. -/
def bandFrequency (d : ℚ) : ℚ :=
  FREQ_MIN + (FREQ_MAX - FREQ_MIN) * (1 - normalized d)

/-- The `sensors/distance` branch of `on_message`: given the parsed value
(already stored into `current_distance`), returns the new
`(current_distance, current_frequency, is_playing)` triple.  The four guards
and their order are exactly those of server.py lines 60–82; in particular the
second and third guards use non-strict bounds on both ends
(`DISTANCE_MAX <= d <= BUFFER_MAX`, `BUFFER_MIN <= d <= DISTANCE_MIN`) and the
clamped branches overwrite `current_distance` with the literals `25` and `2`. -/
def processDistance (d : ℚ) : ℚ × ℚ × Bool :=
  if DISTANCE_MIN ≤ d ∧ d ≤ DISTANCE_MAX then
    (d, bandFrequency d, true)
  else if DISTANCE_MAX ≤ d ∧ d ≤ BUFFER_MAX then
    (25, bandFrequency 25, true)
  else if BUFFER_MIN ≤ d ∧ d ≤ DISTANCE_MIN then
    (2, bandFrequency 2, true)
  else
    (d, 0, false)

/-- The server's module-level mutable state (`current_distance`,
`current_volume`, `current_frequency`, `is_playing`). -/
structure ServerState where
  current_distance : ℚ
  current_volume : ℚ
  current_frequency : ℚ
  is_playing : Bool
deriving DecidableEq

/-- The audio engine's parameter state, as set by
`audio_engine.update_audio_params(frequency, volume, playing)`. -/
structure AudioParams where
  frequency : ℚ
  volume : ℚ
  playing : Bool
deriving DecidableEq

/-- `on_message` from server.py.  `parsed` is the outcome of
`float(msg.payload.decode())`: `some v` when the payload parses as a decimal
number, `none` when it raises `ValueError`.  The parse is attempted before any
state is touched, and the surrounding `try/except` catches the failure, so a
malformed payload leaves both the server state and the audio parameters
unchanged.  On success the topic dispatch updates the state and then
`update_audio_params(current_frequency, current_volume, is_playing)` pushes
the (possibly unchanged) triple to the audio engine. -/
def on_message (s : ServerState) (a : AudioParams) (topic : String)
    (parsed : Option ℚ) : ServerState × AudioParams :=
  match parsed with
  | none => (s, a)
  | some value =>
    let s2 :=
      if topic = ("sensors/distance") then
        let r := processDistance value
        { s with current_distance := r.1, current_frequency := r.2.1,
                 is_playing := r.2.2 }
      else if topic = ("sensors/volume") then
        { s with current_volume := value }
      else
        s
    (s2, { frequency := s2.current_frequency, volume := s2.current_volume,
           playing := s2.is_playing })

/-- The `audio_state` WebSocket payload built by `broadcast_state`. -/
structure AudioStateMsg where
  frequency : ℚ
  volume : ℚ
  distance : ℚ
  playing : Bool
deriving DecidableEq

/-- `broadcast_state` from server.py (the emitted payload; the transport
itself is an external collaborator). -/
def broadcast_state (s : ServerState) : AudioStateMsg :=
  { frequency := s.current_frequency, volume := s.current_volume,
    distance := s.current_distance, playing := s.is_playing }

/-- The `sensor_update` WebSocket payload built by `broadcast_sensor_update`
(the wall-clock timestamp is outside the model). -/
structure SensorUpdateMsg where
  distance : ℚ
  volume : ℚ
deriving DecidableEq

/-- `broadcast_sensor_update` from server.py. -/
def broadcast_sensor_update (s : ServerState) : SensorUpdateMsg :=
  { distance := s.current_distance, volume := s.current_volume }

/- ===================== claims (first batch) ===================== -/

/-- C8: an inbound bus message whose payload cannot be parsed as a decimal
number (the `float` call raises) is dropped: `on_message` leaves the server
state and the synthesizer parameters unchanged, for every topic, and being a
total function it raises nothing. -/
theorem on_message_malformed_drops (s : ServerState) (a : AudioParams)
    (topic : String) : on_message s a topic none = (s, a) :=
  rfl

/- helper lemmas about the clamp bands (shared by several claims) -/

lemma processDistance_inBand (d : ℚ) (h1 : DISTANCE_MIN ≤ d)
    (h2 : d ≤ DISTANCE_MAX) : processDistance d = (d, bandFrequency d, true) := by
  simp only [processDistance]
  rw [if_pos ⟨h1, h2⟩]

lemma processDistance_upper (d : ℚ) (h1 : DISTANCE_MAX < d)
    (h2 : d ≤ BUFFER_MAX) : processDistance d = (25, bandFrequency 25, true) := by
  simp only [processDistance]
  rw [if_neg (by rintro ⟨h3, h4⟩; exact absurd h1 (not_lt.mpr h4)),
    if_pos ⟨le_of_lt h1, h2⟩]

lemma processDistance_lower (d : ℚ) (h1 : BUFFER_MIN ≤ d)
    (h2 : d < DISTANCE_MIN) : processDistance d = (2, bandFrequency 2, true) := by
  simp only [processDistance, DISTANCE_MIN, DISTANCE_MAX, BUFFER_MIN, BUFFER_MAX] at *
  rw [if_neg (by rintro ⟨h3, h4⟩; linarith), if_neg (by rintro ⟨h3, h4⟩; linarith),
    if_pos ⟨h1, le_of_lt h2⟩]

lemma processDistance_outside (d : ℚ) (h : d < BUFFER_MIN ∨ BUFFER_MAX < d) :
    processDistance d = (d, 0, false) := by
  simp only [processDistance, DISTANCE_MIN, DISTANCE_MAX, BUFFER_MIN, BUFFER_MAX] at *
  rcases h with h | h
  · rw [if_neg (by rintro ⟨h3, h4⟩; linarith), if_neg (by rintro ⟨h3, h4⟩; linarith),
      if_neg (by rintro ⟨h3, h4⟩; linarith)]
  · rw [if_neg (by rintro ⟨h3, h4⟩; linarith), if_neg (by rintro ⟨h3, h4⟩; linarith),
      if_neg (by rintro ⟨h3, h4⟩; linarith)]

lemma bandFrequency_min : bandFrequency DISTANCE_MIN = FREQ_MAX := by
  norm_num [bandFrequency, normalized, DISTANCE_MIN, DISTANCE_MAX, FREQ_MIN, FREQ_MAX]

lemma bandFrequency_max : bandFrequency DISTANCE_MAX = FREQ_MIN := by
  norm_num [bandFrequency, normalized, DISTANCE_MIN, DISTANCE_MAX, FREQ_MIN, FREQ_MAX]

lemma on_message_distance_eq (s : ServerState) (a : AudioParams) (v : ℚ) :
    (on_message s a ("sensors/distance") (some v)).1 =
      { s with current_distance := (processDistance v).1,
               current_frequency := (processDistance v).2.1,
               is_playing := (processDistance v).2.2 } := rfl

/-- C1: on the core band `minCm ≤ d ≤ maxCm` the `sensors/distance` handler
plays (`is_playing = true`) with frequency given by the in-band formula; that
formula is strictly decreasing in `d`, attains `freq(minCm) = maxHz` and
`freq(maxCm) = minHz` exactly, and at the midpoint `d = 13.5` the normalized
value is `1/2` and the frequency is `640`. -/
theorem mapDistance_inBand_spec :
    (∀ d : ℚ, DISTANCE_MIN ≤ d → d ≤ DISTANCE_MAX →
      processDistance d = (d, bandFrequency d, true)) ∧
    (∀ d1 d2 : ℚ, DISTANCE_MIN ≤ d1 → d1 ≤ DISTANCE_MAX →
      DISTANCE_MIN ≤ d2 → d2 ≤ DISTANCE_MAX → d1 < d2 →
      bandFrequency d2 < bandFrequency d1) ∧
    bandFrequency DISTANCE_MIN = FREQ_MAX ∧
    bandFrequency DISTANCE_MAX = FREQ_MIN ∧
    normalized (27/2) = 1/2 ∧
    bandFrequency (27/2) = 640 := by
  refine ⟨fun d h1 h2 => processDistance_inBand d h1 h2, ?_,
    bandFrequency_min, bandFrequency_max, ?_, ?_⟩
  · intro d1 d2 _ _ _ _ h
    simp only [bandFrequency, normalized, DISTANCE_MIN, DISTANCE_MAX,
      FREQ_MIN, FREQ_MAX]
    linarith
  · norm_num [normalized, DISTANCE_MIN, DISTANCE_MAX]
  · norm_num [bandFrequency, normalized, DISTANCE_MIN, DISTANCE_MAX,
      FREQ_MIN, FREQ_MAX]

/-- Witness for C1 at the concrete in-band distances 3 and 4. -/
theorem mapDistance_inBand_spec_witness :
    DISTANCE_MIN ≤ (3 : ℚ) ∧ (3 : ℚ) ≤ DISTANCE_MAX ∧
    DISTANCE_MIN ≤ (4 : ℚ) ∧ (4 : ℚ) ≤ DISTANCE_MAX ∧ (3 : ℚ) < 4 ∧
    processDistance 3 = (3, bandFrequency 3, true) ∧
    bandFrequency 4 < bandFrequency 3 :=
  ⟨by norm_num [DISTANCE_MIN], by norm_num [DISTANCE_MAX],
   by norm_num [DISTANCE_MIN], by norm_num [DISTANCE_MAX], by norm_num,
   mapDistance_inBand_spec.1 3 (by norm_num [DISTANCE_MIN])
     (by norm_num [DISTANCE_MAX]),
   mapDistance_inBand_spec.2.1 3 4 (by norm_num [DISTANCE_MIN])
     (by norm_num [DISTANCE_MAX]) (by norm_num [DISTANCE_MIN])
     (by norm_num [DISTANCE_MAX]) (by norm_num)⟩

/-- C5: outside the core band the handler clamps.  On `maxCm < d ≤ bufferMax`
the result is the in-band formula at `maxCm` (frequency `minHz = 256`,
playing); on `bufferMin ≤ d < minCm` it is the formula at `minCm` (frequency
`maxHz = 1024`, playing); everywhere else frequency is `0` and playing is
`false`.  Concretely `d = 1` gives `(2, 1024, true)` and `d = 50` gives
`(50, 0, false)`. -/
theorem processDistance_toleranceBands :
    (∀ d : ℚ, DISTANCE_MAX < d → d ≤ BUFFER_MAX →
      processDistance d = (25, bandFrequency 25, true) ∧
      bandFrequency 25 = FREQ_MIN) ∧
    (∀ d : ℚ, BUFFER_MIN ≤ d → d < DISTANCE_MIN →
      processDistance d = (2, bandFrequency 2, true) ∧
      bandFrequency 2 = FREQ_MAX) ∧
    (∀ d : ℚ, d < BUFFER_MIN ∨ BUFFER_MAX < d →
      processDistance d = (d, 0, false)) ∧
    processDistance 1 = (2, 1024, true) ∧
    processDistance 50 = (50, 0, false) := by
  have h25 : bandFrequency 25 = FREQ_MIN := bandFrequency_max
  have h2 : bandFrequency 2 = FREQ_MAX := bandFrequency_min
  refine ⟨fun d hd1 hd2 => ⟨processDistance_upper d hd1 hd2, h25⟩,
    fun d hd1 hd2 => ⟨processDistance_lower d hd1 hd2, h2⟩,
    fun d hd => processDistance_outside d hd, ?_, ?_⟩
  · rw [processDistance_lower 1 (by norm_num [BUFFER_MIN])
      (by norm_num [DISTANCE_MIN]), h2]
    norm_num [FREQ_MAX]
  · exact processDistance_outside 50 (Or.inr (by norm_num [BUFFER_MAX]))

/-- Witness for C5 at the concrete distances 26, 1 and 50. -/
theorem processDistance_toleranceBands_witness :
    DISTANCE_MAX < (26 : ℚ) ∧ (26 : ℚ) ≤ BUFFER_MAX ∧
    BUFFER_MIN ≤ (1 : ℚ) ∧ (1 : ℚ) < DISTANCE_MIN ∧
    ((50 : ℚ) < BUFFER_MIN ∨ BUFFER_MAX < (50 : ℚ)) ∧
    processDistance 26 = (25, bandFrequency 25, true) ∧
    processDistance 1 = (2, bandFrequency 2, true) ∧
    processDistance 50 = (50, 0, false) :=
  ⟨by norm_num [DISTANCE_MAX], by norm_num [BUFFER_MAX],
   by norm_num [BUFFER_MIN], by norm_num [DISTANCE_MIN],
   Or.inr (by norm_num [BUFFER_MAX]),
   (processDistance_toleranceBands.1 26 (by norm_num [DISTANCE_MAX])
     (by norm_num [BUFFER_MAX])).1,
   (processDistance_toleranceBands.2.1 1 (by norm_num [BUFFER_MIN])
     (by norm_num [DISTANCE_MIN])).1,
   processDistance_toleranceBands.2.2.1 50 (Or.inr (by norm_num [BUFFER_MAX]))⟩

/-- C10: for a `sensors/distance` event in a tolerance band the handler stores
the clamped boundary value (25 resp. 2) in `current_distance`, not the
measured value, so the `audio_state` and `sensor_update` broadcasts report the
clamped distance, which differs from the distance actually received. -/
theorem on_message_clamps_stored_distance (s : ServerState) (a : AudioParams)
    (d : ℚ) :
    (DISTANCE_MAX < d → d ≤ BUFFER_MAX →
      (on_message s a ("sensors/distance") (some d)).1.current_distance = 25 ∧
      (broadcast_state
        (on_message s a ("sensors/distance") (some d)).1).distance = 25 ∧
      (broadcast_sensor_update
        (on_message s a ("sensors/distance") (some d)).1).distance = 25 ∧
      (on_message s a ("sensors/distance") (some d)).1.current_distance ≠ d) ∧
    (BUFFER_MIN ≤ d → d < DISTANCE_MIN →
      (on_message s a ("sensors/distance") (some d)).1.current_distance = 2 ∧
      (broadcast_state
        (on_message s a ("sensors/distance") (some d)).1).distance = 2 ∧
      (broadcast_sensor_update
        (on_message s a ("sensors/distance") (some d)).1).distance = 2 ∧
      (on_message s a ("sensors/distance") (some d)).1.current_distance ≠ d) := by
  constructor
  · intro h1 h2
    have hp := processDistance_upper d h1 h2
    have hcd : (on_message s a ("sensors/distance")
        (some d)).1.current_distance = 25 := by
      rw [on_message_distance_eq, hp]
    have hne : (25 : ℚ) ≠ d := by
      simp only [DISTANCE_MAX] at h1
      exact ne_of_lt h1
    exact ⟨hcd, by simp [broadcast_state, hcd], by
      simp [broadcast_sensor_update, hcd], by rw [hcd]; exact hne⟩
  · intro h1 h2
    have hp := processDistance_lower d h1 h2
    have hcd : (on_message s a ("sensors/distance")
        (some d)).1.current_distance = 2 := by
      rw [on_message_distance_eq, hp]
    have hne : (2 : ℚ) ≠ d := by
      simp only [DISTANCE_MIN] at h2
      exact (ne_of_lt h2).symm
    exact ⟨hcd, by simp [broadcast_state, hcd], by
      simp [broadcast_sensor_update, hcd], by rw [hcd]; exact hne⟩

/-- Witness for C10: concrete events at measured distances 26 and 1. -/
theorem on_message_clamps_stored_distance_witness :
    DISTANCE_MAX < (26 : ℚ) ∧ (26 : ℚ) ≤ BUFFER_MAX ∧
    BUFFER_MIN ≤ (1 : ℚ) ∧ (1 : ℚ) < DISTANCE_MIN ∧
    (on_message ⟨0, 1/2, 0, false⟩ ⟨440, 1/2, false⟩ ("sensors/distance")
      (some 26)).1.current_distance = 25 ∧
    (on_message ⟨0, 1/2, 0, false⟩ ⟨440, 1/2, false⟩ ("sensors/distance")
      (some 1)).1.current_distance = 2 :=
  ⟨by norm_num [DISTANCE_MAX], by norm_num [BUFFER_MAX],
   by norm_num [BUFFER_MIN], by norm_num [DISTANCE_MIN],
   ((on_message_clamps_stored_distance ⟨0, 1/2, 0, false⟩ ⟨440, 1/2, false⟩
     26).1 (by norm_num [DISTANCE_MAX]) (by norm_num [BUFFER_MAX])).1,
   ((on_message_clamps_stored_distance ⟨0, 1/2, 0, false⟩ ⟨440, 1/2, false⟩
     1).2 (by norm_num [BUFFER_MIN]) (by norm_num [DISTANCE_MIN])).1⟩

/- helper lemmas about the moving-average window -/

lemma dequeAppend_eq_rtake (buf : List ℚ) (x : ℚ) :
    dequeAppend buf x = (buf ++ [x]).rtake FILTER_WINDOW_SIZE := rfl

lemma take_append_take (a b : List ℚ) (n : ℕ) :
    (a ++ b.take n).take n = (a ++ b).take n := by
  rw [List.take_append_eq_append_take, List.take_append_eq_append_take,
    List.take_take, Nat.min_eq_left (Nat.sub_le n a.length)]

lemma reverse_rtake (l : List ℚ) (n : ℕ) :
    (l.rtake n).reverse = l.reverse.take n := by
  rw [List.rtake_eq_reverse_take_reverse, List.reverse_reverse]

lemma rtake_append_rtake (l ys : List ℚ) (n : ℕ) :
    (l.rtake n ++ ys).rtake n = (l ++ ys).rtake n := by
  rw [List.rtake_eq_reverse_take_reverse, List.rtake_eq_reverse_take_reverse
    (l := l ++ ys), List.reverse_append, List.reverse_append, reverse_rtake,
    take_append_take]

lemma foldl_dequeAppend_rtake (raws : List ℚ) : ∀ buf : List ℚ,
    raws.foldl dequeAppend (buf.rtake FILTER_WINDOW_SIZE) =
      (buf ++ raws).rtake FILTER_WINDOW_SIZE := by
  induction raws with
  | nil => intro buf; simp
  | cons x xs ih =>
    intro buf
    rw [List.foldl_cons, dequeAppend_eq_rtake, rtake_append_rtake,
      ih (buf ++ [x])]
    simp

lemma distanceBufferAfter_eq_rtake (raws : List ℚ) :
    distanceBufferAfter raws = raws.rtake FILTER_WINDOW_SIZE := by
  have h := foldl_dequeAppend_rtake raws []
  simpa [distanceBufferAfter] using h

lemma length_rtake (l : List ℚ) (n : ℕ) :
    (l.rtake n).length = min n l.length := by
  rw [List.rtake, List.length_drop]
  omega

/-- C2: after any nonempty sequence of successful raw reads, the filter's
return value is the arithmetic mean of the last `min(5, k)` raw samples in
arrival order (`List.rtake` keeps exactly the last `n` elements, the FIFO
eviction of the `deque(maxlen=5)`); on the raw samples `[10,10,10,10,10]` the
filtered output is exactly `10`. -/
theorem filtered_distance_is_moving_average :
    (∀ raws : List ℚ, raws ≠ [] →
      get_filtered_distance raws =
        (raws.rtake FILTER_WINDOW_SIZE).sum /
          ((min FILTER_WINDOW_SIZE raws.length : ℕ) : ℚ)) ∧
    get_filtered_distance [10, 10, 10, 10, 10] = 10 := by
  constructor
  · intro raws _
    rw [get_filtered_distance, distanceBufferAfter_eq_rtake, length_rtake]
  · norm_num [get_filtered_distance, distanceBufferAfter, dequeAppend,
      FILTER_WINDOW_SIZE]

/-- Witness for C2 on the six raw reads `[10,10,10,10,10,4]` (the window
holds the last five). -/
theorem filtered_distance_is_moving_average_witness :
    ([10, 10, 10, 10, 10, 4] : List ℚ) ≠ [] ∧
    get_filtered_distance [10, 10, 10, 10, 10, 4] =
      (([10, 10, 10, 10, 10, 4] : List ℚ).rtake FILTER_WINDOW_SIZE).sum /
        ((min FILTER_WINDOW_SIZE
          ([10, 10, 10, 10, 10, 4] : List ℚ).length : ℕ) : ℚ) :=
  ⟨by simp, filtered_distance_is_moving_average.1 _ (by simp)⟩

/-- Counterexample to C3 as stated: the source performs no clamp, so a raw
reading above `maxRaw` (here `2046 > 1023`) yields a volume of `2`, outside
`[0, 1]`. -/
theorem get_volume_exceeds_one_counterexample : ¬ (get_volume 2046 ≤ 1) := by
  norm_num [get_volume]

/-- C3 (amended): `get_volume` returns `raw / 1023` without any clamping; the
`[0,1]` invariant therefore holds exactly on the sensor's documented domain
`raw ≤ 1023`, and fails beyond it. -/
theorem get_volume_normalizes_in_domain (raw : ℕ) :
    get_volume raw = (raw : ℚ) / 1023 ∧
    (raw ≤ 1023 → 0 ≤ get_volume raw ∧ get_volume raw ≤ 1) := by
  refine ⟨rfl, fun h => ⟨?_, ?_⟩⟩
  · exact div_nonneg (Nat.cast_nonneg raw) (by norm_num)
  · rw [get_volume, div_le_one (by norm_num)]
    exact_mod_cast h

/-- Witness for the amended C3 at the mid-scale reading 512. -/
theorem get_volume_normalizes_in_domain_witness :
    (512 : ℕ) ≤ 1023 ∧ 0 ≤ get_volume 512 ∧ get_volume 512 ≤ 1 :=
  ⟨by norm_num,
   ((get_volume_normalizes_in_domain 512).2 (by norm_num)).1,
   ((get_volume_normalizes_in_domain 512).2 (by norm_num)).2⟩

/- ===================== src/server/audio_engine.py ===================== -/

/-- `SAMPLE_RATE = 44100` (Hz). -/
def SAMPLE_RATE : ℕ := 44100

/-- `CHUNK_DURATION = 0.05` (seconds). -/
noncomputable def CHUNK_DURATION : ℝ := 0.05

/-- Python's `int(...)` on a real value: truncation toward zero. -/
noncomputable def pyInt (x : ℝ) : ℤ := if 0 ≤ x then ⌊x⌋ else ⌈x⌉

/-- `int(SAMPLE_RATE * duration)`, the sample count used by
`np.linspace(0, duration, ..., endpoint=False)` in `generate_tone` and by
`np.zeros` in `generate_silence` (taken as a `ℕ` list length). -/
noncomputable def numSamples (duration : ℝ) : ℕ :=
  (pyInt ((SAMPLE_RATE : ℝ) * duration)).toNat

/-- `CHUNK_SIZE = int(SAMPLE_RATE * CHUNK_DURATION)`. -/
noncomputable def CHUNK_SIZE : ℕ := numSamples CHUNK_DURATION

/-- `HARMONIC_RATIOS`: the fixed `(multiplier, amplitude)` pairs. -/
noncomputable def HARMONIC_RATIOS : List (ℝ × ℝ) :=
  [(1.0, 1.00), (2.0, 0.80), (3.0, 1.75), (4.0, 0.25), (5.0, 0.18)]

/-- `generate_tone` from audio_engine.py.  The time array is
`np.linspace(0, duration, int(SAMPLE_RATE*duration), endpoint=False)`, whose
`i`-th entry is `duration * i / n`; each harmonic contributes
`amp * sin(2π * (frequency*mult) * t)`; the accumulated waveform is divided by
the sum of the amplitudes and multiplied by the volume.  (The `float32`
narrowing of the final cast is outside this real-valued model.) -/
noncomputable def generate_tone (frequency volume duration : ℝ) : List ℝ :=
  (List.range (numSamples duration)).map fun (i : ℕ) =>
    ((HARMONIC_RATIOS.map fun h =>
        h.2 * Real.sin (2 * Real.pi * (frequency * h.1) *
          (duration * (i : ℝ) / ((numSamples duration : ℕ) : ℝ)))).sum /
      (HARMONIC_RATIOS.map Prod.snd).sum) * volume

/-- `generate_silence` from audio_engine.py:
`np.zeros(int(SAMPLE_RATE * duration))`. -/
noncomputable def generate_silence (duration : ℝ) : List ℝ :=
  List.replicate (numSamples duration) 0

/-- The branch structure of `audio_callback`: a tone chunk when
`is_playing and current_frequency > 0`, else a silence chunk, both of
duration `CHUNK_DURATION`. -/
noncomputable def audio_callback (playing : Bool) (frequency volume : ℝ) :
    List ℝ :=
  if playing = true ∧ frequency > 0 then
    generate_tone frequency volume CHUNK_DURATION
  else
    generate_silence CHUNK_DURATION

/-- The `try/except` of `audio_callback`: `attempt` is the outcome of the try
body (`ok chunk` when synthesis and the buffer copy succeeded, `error e` when
any internal failure was raised); the except arm writes
`np.zeros((frames, 1))` into the output.  The function is total, so no fault
ever propagates to the audio subsystem. -/
def audio_callback_except (attempt : Except String (List ℝ)) (frames : ℕ) :
    List ℝ :=
  match attempt with
  | Except.ok chunk => chunk
  | Except.error _ => List.replicate frames 0

/- helper lemmas about sample counts -/

lemma numSamples_pos_dur (dur : ℝ) (h : 0 < dur) :
    numSamples dur = (⌊(SAMPLE_RATE : ℝ) * dur⌋).toNat := by
  rw [numSamples, pyInt,
    if_pos (mul_nonneg (by norm_num [SAMPLE_RATE]) (le_of_lt h))]

lemma numSamples_inv20 : numSamples ((1 : ℝ)/20) = 2205 := by
  rw [numSamples_pos_dur _ (by norm_num)]
  have h : (SAMPLE_RATE : ℝ) * ((1 : ℝ)/20) = ((2205 : ℤ) : ℝ) := by
    norm_num [SAMPLE_RATE]
  rw [h, Int.floor_intCast]
  rfl

lemma floor_882 : ⌊(441 : ℝ)/50⌋ = 8 := by
  rw [Int.floor_eq_iff]
  constructor <;> norm_num

lemma numSamples_inv5000 : numSamples ((1 : ℝ)/5000) = 8 := by
  rw [numSamples_pos_dur _ (by norm_num)]
  have h : (SAMPLE_RATE : ℝ) * ((1 : ℝ)/5000) = 441/50 := by
    norm_num [SAMPLE_RATE]
  rw [h, floor_882]
  rfl

/-- Counterexample to C4 as stated: `int()` truncates, it does not round.  At
`dur = 1/5000` the product `SAMPLE_RATE * dur = 8.82` gives a buffer of 8
samples, while `round(8.82) = 9`. -/
theorem buffer_length_not_round_counterexample :
    (generate_tone 440 (1/2) ((1 : ℝ)/5000)).length = 8 ∧
    (generate_silence ((1 : ℝ)/5000)).length = 8 ∧
    (round ((SAMPLE_RATE : ℝ) * ((1 : ℝ)/5000))).toNat = 9 ∧
    (generate_tone 440 (1/2) ((1 : ℝ)/5000)).length ≠
      (round ((SAMPLE_RATE : ℝ) * ((1 : ℝ)/5000))).toNat := by
  have hlen : (generate_tone 440 (1/2) ((1 : ℝ)/5000)).length = 8 := by
    simp only [generate_tone]
    rw [List.length_map, List.length_range, numSamples_inv5000]
  have hsil : (generate_silence ((1 : ℝ)/5000)).length = 8 := by
    simp only [generate_silence]
    rw [List.length_replicate, numSamples_inv5000]
  have hround : (round ((SAMPLE_RATE : ℝ) * ((1 : ℝ)/5000))).toNat = 9 := by
    have h : (SAMPLE_RATE : ℝ) * ((1 : ℝ)/5000) = 441/50 := by
      norm_num [SAMPLE_RATE]
    rw [h, round_eq]
    have h2 : (441 : ℝ)/50 + 1/2 = 466/50 := by norm_num
    rw [h2]
    have h3 : ⌊(466 : ℝ)/50⌋ = 9 := by
      rw [Int.floor_eq_iff]
      constructor <;> norm_num
    rw [h3]
    rfl
  exact ⟨hlen, hsil, hround, by rw [hlen, hround]; norm_num⟩

/-- C4 (amended): for every frequency, volume and duration `dur > 0` the
buffers produced by `generate_tone` and `generate_silence` have length
`int(SAMPLE_RATE * dur)`, i.e. the product truncated toward zero (`⌊·⌋` on a
positive product), not rounded. -/
theorem buffer_length_is_truncated_product (f v dur : ℝ) (h : 0 < dur) :
    (generate_tone f v dur).length = (⌊(SAMPLE_RATE : ℝ) * dur⌋).toNat ∧
    (generate_silence dur).length = (⌊(SAMPLE_RATE : ℝ) * dur⌋).toNat := by
  constructor
  · simp only [generate_tone]
    rw [List.length_map, List.length_range, numSamples_pos_dur dur h]
  · simp only [generate_silence]
    rw [List.length_replicate, numSamples_pos_dur dur h]

/-- Witness for the amended C4 at `dur = 1/20` (2205 samples). -/
theorem buffer_length_is_truncated_product_witness :
    0 < (1 : ℝ)/20 ∧
    (generate_tone 440 (1/2) ((1 : ℝ)/20)).length =
      (⌊(SAMPLE_RATE : ℝ) * ((1 : ℝ)/20)⌋).toNat ∧
    (generate_silence ((1 : ℝ)/20)).length =
      (⌊(SAMPLE_RATE : ℝ) * ((1 : ℝ)/20)⌋).toNat :=
  ⟨by norm_num,
   (buffer_length_is_truncated_product 440 (1/2) ((1 : ℝ)/20) (by norm_num)).1,
   (buffer_length_is_truncated_product 440 (1/2) ((1 : ℝ)/20) (by norm_num)).2⟩

/-- C6: when the gate is off or the frequency is not positive, the audio
callback produces the all-zero silence chunk, of the same length `CHUNK_SIZE`
a tone chunk would have. -/
theorem audio_callback_silence_when_gated (f v : ℝ) (playing : Bool)
    (h : playing = false ∨ f ≤ 0) :
    audio_callback playing f v = List.replicate CHUNK_SIZE 0 ∧
    (audio_callback playing f v).length = CHUNK_SIZE ∧
    (generate_tone f v CHUNK_DURATION).length = CHUNK_SIZE := by
  have hc : ¬(playing = true ∧ f > 0) := by
    rcases h with h | h
    · rintro ⟨h1, -⟩
      rw [h] at h1
      exact Bool.false_ne_true h1
    · rintro ⟨-, h2⟩
      exact absurd h2 (not_lt.mpr h)
  have he : audio_callback playing f v = generate_silence CHUNK_DURATION := by
    simp only [audio_callback]
    rw [if_neg hc]
  refine ⟨he.trans rfl, ?_, ?_⟩
  · rw [he]
    simp only [generate_silence]
    rw [List.length_replicate]
    rfl
  · simp only [generate_tone]
    rw [List.length_map, List.length_range]
    rfl

/-- Witness for C6 with the gate off at frequency 440 and volume 1/2. -/
theorem audio_callback_silence_when_gated_witness :
    ((false : Bool) = false ∨ (440 : ℝ) ≤ 0) ∧
    audio_callback false 440 (1/2) = List.replicate CHUNK_SIZE 0 :=
  ⟨Or.inl rfl,
   (audio_callback_silence_when_gated 440 (1/2) false (Or.inl rfl)).1⟩

/-- C7: whenever the try body of the audio callback raises, the except arm
substitutes an all-zero buffer of exactly the requested number of frames;
`audio_callback_except` is a total function, so no fault propagates out of
the callback. -/
theorem audio_callback_error_yields_zeros (msg : String) (frames : ℕ) :
    audio_callback_except (Except.error msg) frames =
      List.replicate frames 0 ∧
    (audio_callback_except (Except.error msg) frames).length = frames :=
  ⟨rfl, by simp [audio_callback_except]⟩

/- helper lemmas for the amplitude bound -/

lemma harmonic_sum_abs_le (f t : ℝ) :
    |(HARMONIC_RATIOS.map fun h =>
        h.2 * Real.sin (2 * Real.pi * (f * h.1) * t)).sum| ≤
      (HARMONIC_RATIOS.map Prod.snd).sum := by
  simp only [HARMONIC_RATIOS, List.map_cons, List.map_nil, List.sum_cons,
    List.sum_nil, add_zero]
  have s1 := Real.neg_one_le_sin (2 * Real.pi * (f * 1.0) * t)
  have t1 := Real.sin_le_one (2 * Real.pi * (f * 1.0) * t)
  have s2 := Real.neg_one_le_sin (2 * Real.pi * (f * 2.0) * t)
  have t2 := Real.sin_le_one (2 * Real.pi * (f * 2.0) * t)
  have s3 := Real.neg_one_le_sin (2 * Real.pi * (f * 3.0) * t)
  have t3 := Real.sin_le_one (2 * Real.pi * (f * 3.0) * t)
  have s4 := Real.neg_one_le_sin (2 * Real.pi * (f * 4.0) * t)
  have t4 := Real.sin_le_one (2 * Real.pi * (f * 4.0) * t)
  have s5 := Real.neg_one_le_sin (2 * Real.pi * (f * 5.0) * t)
  have t5 := Real.sin_le_one (2 * Real.pi * (f * 5.0) * t)
  rw [abs_le]
  constructor <;> nlinarith [s1, t1, s2, t2, s3, t3, s4, t4, s5, t5]

/-- C9: for every frequency, every duration `dur > 0` and every volume
`v ∈ [0,1]`, every sample of `generate_tone` has absolute value at most `v`,
hence at most 1: the harmonic sum is bounded by the amplitude sum 3.98, the
normalization divides by exactly that sum, and the volume factor is in
`[0,1]`. -/
theorem generate_tone_samples_bounded (f v dur : ℝ) (h0 : 0 ≤ v) (h1 : v ≤ 1)
    (hd : 0 < dur) :
    ∀ s ∈ generate_tone f v dur, |s| ≤ v ∧ |s| ≤ 1 := by
  intro s hs
  simp only [generate_tone, List.mem_map, List.mem_range] at hs
  obtain ⟨i, -, rfl⟩ := hs
  have hA : (HARMONIC_RATIOS.map Prod.snd).sum = 3.98 := by
    norm_num [HARMONIC_RATIOS]
  have hb := harmonic_sum_abs_le f (dur * (i : ℝ) / ((numSamples dur : ℕ) : ℝ))
  rw [hA] at hb
  have key : |(HARMONIC_RATIOS.map fun h =>
      h.2 * Real.sin (2 * Real.pi * (f * h.1) *
        (dur * (i : ℝ) / ((numSamples dur : ℕ) : ℝ)))).sum /
      (HARMONIC_RATIOS.map Prod.snd).sum * v| ≤ v := by
    rw [hA, abs_mul, abs_div, abs_of_nonneg h0]
    have hden : |(3.98 : ℝ)| = 3.98 := by norm_num
    rw [hden]
    have hq : |(HARMONIC_RATIOS.map fun h =>
        h.2 * Real.sin (2 * Real.pi * (f * h.1) *
          (dur * (i : ℝ) / ((numSamples dur : ℕ) : ℝ)))).sum| / 3.98 ≤ 1 := by
      rw [div_le_one (by norm_num)]
      exact hb
    nlinarith [abs_nonneg ((HARMONIC_RATIOS.map fun h =>
      h.2 * Real.sin (2 * Real.pi * (f * h.1) *
        (dur * (i : ℝ) / ((numSamples dur : ℕ) : ℝ)))).sum)]
  exact ⟨key, le_trans key h1⟩

lemma zero_mem_tone : (0 : ℝ) ∈ generate_tone 440 (1/2) ((1 : ℝ)/20) := by
  simp only [generate_tone]
  refine List.mem_map.mpr ⟨0, ?_, ?_⟩
  · rw [List.mem_range, numSamples_inv20]
    norm_num
  · simp [HARMONIC_RATIOS]

/-- Witness for C9: the first sample of a concrete tone buffer (which is 0,
since each buffer restarts at phase 0) is bounded by the volume 1/2 and by 1. -/
theorem generate_tone_samples_bounded_witness :
    0 ≤ (1 : ℝ)/2 ∧ (1 : ℝ)/2 ≤ 1 ∧ 0 < (1 : ℝ)/20 ∧
    |(0 : ℝ)| ≤ (1 : ℝ)/2 ∧ |(0 : ℝ)| ≤ 1 :=
  ⟨by norm_num, by norm_num, by norm_num,
   (generate_tone_samples_bounded 440 (1/2) ((1 : ℝ)/20) (by norm_num)
     (by norm_num) (by norm_num) 0 zero_mem_tone).1,
   (generate_tone_samples_bounded 440 (1/2) ((1 : ℝ)/20) (by norm_num)
     (by norm_num) (by norm_num) 0 zero_mem_tone).2⟩
